import Mathlib

/-!
Verification development for the Aureus agentic-OS data contracts.

The Python sources are shallowly embedded:
pure functions become Lean functions, pydantic model construction becomes
an Option-returning constructor that performs exactly the declared field
checks, fallible Python code returns Except, and the one random draw in
the demo risk scorer is passed as an explicit integer parameter.
Python floats are modelled as rationals: every float is a rational and the
comparisons the code performs agree with the rational order.
-/

namespace Aureus

/-- JSON values as produced by parsing a request or response body.
JSON numbers are modelled as integers; the behaviours examined here
(truthiness, membership, attribute errors) are identical for floats. -/
inductive J where
  | null
  | bool (b : Bool)
  | num (n : Int)
  | str (s : String)
  | arr (elems : List J)
  | obj (fields : List (String × J))

/-- The Python exceptions the embedded code can raise. -/
inductive PyErr where
  | attributeError
  | typeError
deriving DecidableEq

/-- Substring test on strings, written over character lists. -/
def containsSub (needle hay : String) : Bool :=
  hay.toList.tails.any (fun t => needle.toList.isPrefixOf t)

/-- Python str.lower, modelled as characterwise ASCII lowercasing; this
agrees with Python on ASCII strings, which is all the examined code
compares against. -/
def pyLower (s : String) : String :=
  String.mk (s.toList.map Char.toLower)

/-- Python truthiness of a parsed JSON value. -/
def truthy : J → Bool
  | .null => false
  | .bool b => b
  | .num n => n != 0
  | .str s => s != ""
  | .arr xs => !xs.isEmpty
  | .obj fs => !fs.isEmpty

/-- Python membership test, key in value: dict keys, list elements
compared with string equality, substring for strings; a TypeError for
non-iterable values. -/
def pyIn (key : String) : J → Except PyErr Bool
  | .obj fs => .ok (fs.any (fun kv => kv.1 == key))
  | .arr xs => .ok (xs.any (fun x => match x with | .str s => s == key | _ => false))
  | .str s => .ok (containsSub key s)
  | _ => .error .typeError

/-- Python dict get with a default: an AttributeError on non-dict values. -/
def pyGetD : J → String → J → Except PyErr J
  | .obj fs, key, dflt => .ok ((fs.lookup key).getD dflt)
  | _, _, _ => .error .attributeError

/-- Risk assessment thresholds, app.py RISK_THRESHOLDS. -/
def RISK_THRESHOLDS : String → Int
  | "low" => 30
  | "medium" => 70
  | _ => 100

/-- Action risk scores, app.py ACTION_RISKS. -/
def ACTION_RISKS : List (String × Int) :=
  [("read_document", 10),
   ("send_email", 25),
   ("create_task", 20),
   ("update_record", 35),
   ("delete_record", 85),
   ("delete_database", 95),
   ("execute_code", 90),
   ("modify_permissions", 80),
   ("transfer_funds", 95),
   ("access_admin", 85)]

/-- ACTION_RISKS.get(action, 50): string keys are looked up, other
hashable values miss and give the default, unhashable containers raise. -/
def baseRiskOf : J → Except PyErr Int
  | .str s => .ok ((ACTION_RISKS.lookup s).getD 50)
  | .arr _ => .error .typeError
  | .obj _ => .error .typeError
  | _ => .ok 50

/-- user_id.lower(): an AttributeError on non-string values. -/
def userLower : J → Except PyErr String
  | .str s => .ok (pyLower s)
  | _ => .error .attributeError

/-- Extraction of the intent fields read by calculate_risk_score:
context.get with default an empty dict, then the action and user_id
fields with their string defaults. -/
def getIntentFields (context : J) : Except PyErr (J × J) := do
  let intent ← pyGetD context "intent" (.obj [])
  let actionJ ← pyGetD intent "action" (.str "unknown")
  let userJ ← pyGetD intent "user_id" (.str "unknown")
  .ok (actionJ, userJ)

/-- app.py calculate_risk_score, with the random.randint(-5, 10) draw
passed as the explicit parameter adj. -/
def calculate_risk_score (context : J) (adj : Int) : Except PyErr Int := do
  let (actionJ, userJ) ← getIntentFields context
  let base ← baseRiskOf actionJ
  let ul ← userLower userJ
  let base1 := if containsSub "admin" ul || containsSub "privileged" ul
               then max 0 (base - 15) else base
  .ok (max 0 (min 100 (base1 + adj)))

/-- app.py assess_risk_level. -/
def assess_risk_level (score : Int) : String :=
  if score < RISK_THRESHOLDS "low" then "low"
  else if score < RISK_THRESHOLDS "medium" then "medium"
  else "high"

/-- The observable outcome of the policy evaluation endpoint: the 400
invalid-request response, a 500 from an uncaught exception, or the 200
plan with its risk assessment and approval flag. -/
inductive Resp where
  | invalidRequest
  | serverError
  | ok (risk_score : Int) (risk_level : String) (approval_required : Bool)
deriving DecidableEq

/-- app.py evaluate_policy: body is the parsed JSON request body when one
was supplied, adj the random draw.  Mirrors the source: a falsy or
absent context or a context lacking an intent key returns the 400
response; an exception anywhere in the handler returns the 500 response;
otherwise the risk score, level and approval requirement from
generate_plan are returned with status 200. -/
def evaluate_policy (body : Option J) (adj : Int) : Resp :=
  match body with
  | none => .invalidRequest
  | some ctx =>
    if truthy ctx = false then .invalidRequest
    else
      match pyIn "intent" ctx with
      | .error _ => .serverError
      | .ok false => .invalidRequest
      | .ok true =>
        match calculate_risk_score ctx adj with
        | .error _ => .serverError
        | .ok score =>
          let level := assess_risk_level score
          .ok score level (level == "high" || level == "medium")

/-! Enumerations from aureus_sdk.models.common and workflow. -/

/-- common.py RiskTier. -/
inductive RiskTier where
  | LOW | MEDIUM | HIGH | CRITICAL
deriving DecidableEq

/-- common.py Intent. -/
inductive Intent where
  | READ | WRITE | DELETE | EXECUTE | ADMIN
deriving DecidableEq

/-- common.py DataZone. -/
inductive DataZone where
  | PUBLIC | INTERNAL | CONFIDENTIAL | RESTRICTED
deriving DecidableEq

/-- common.py Permission. -/
structure Permission where
  action : String
  resource : String
  intent : Option Intent
  data_zone : Option DataZone
  conditions : Option J

/-- workflow.py SandboxType. -/
inductive SandboxType where
  | MOCK | SIMULATION | CONTAINER | VM | PROCESS
deriving DecidableEq

/-- workflow.py TaskType. -/
inductive TaskType where
  | ACTION | DECISION | PARALLEL
deriving DecidableEq

/-- workflow.py RetryConfig: max_attempts with ge=1, backoff_ms with
ge=1, optional backoff_multiplier with ge=0, optional jitter flag. -/
structure RetryConfig where
  max_attempts : Int
  backoff_ms : Int
  backoff_multiplier : Option ℚ
  jitter : Option Bool

/-- Pydantic construction of a RetryConfig: the declared Field bounds
are checked and a failing bound raises a ValidationError, modelled as
none. -/
def RetryConfig.construct (max_attempts backoff_ms : Int)
    (backoff_multiplier : Option ℚ) (jitter : Option Bool) : Option RetryConfig :=
  if 1 ≤ max_attempts then
    if 1 ≤ backoff_ms then
      match backoff_multiplier with
      | some m =>
        if 0 ≤ m then some ⟨max_attempts, backoff_ms, some m, jitter⟩ else none
      | none => some ⟨max_attempts, backoff_ms, none, jitter⟩
    else none
  else none

/-- workflow.py CompensationAction. -/
structure CompensationAction where
  tool : String
  args : List (String × J)

/-- workflow.py CompensationHook. -/
structure CompensationHook where
  on_failure : Option String
  on_timeout : Option String

/-- workflow.py SandboxConfig. -/
structure SandboxConfig where
  enabled : Bool
  type : Option SandboxType
  simulation_mode : Option Bool
  permissions : Option J

/-- workflow.py TaskSpec.  The only numeric Field bound is timeout_ms
with ge=1. -/
structure TaskSpec where
  id : String
  name : String
  type : TaskType
  inputs : Option J
  retry : Option RetryConfig
  idempotency_key : Option String
  timeout_ms : Option Int
  risk_tier : Option RiskTier
  compensation : Option CompensationHook
  compensation_action : Option CompensationAction
  tool_name : Option String
  required_permissions : Option (List Permission)
  allowed_tools : Option (List String)
  intent : Option Intent
  data_zone : Option DataZone
  sandbox_config : Option SandboxConfig

/-- Pydantic construction of a TaskSpec: timeout_ms, when present, must
satisfy ge=1; no other field carries a constraint. -/
def TaskSpec.construct (id name : String) (type : TaskType) (inputs : Option J)
    (retry : Option RetryConfig) (idempotency_key : Option String)
    (timeout_ms : Option Int) (risk_tier : Option RiskTier)
    (compensation : Option CompensationHook)
    (compensation_action : Option CompensationAction)
    (tool_name : Option String) (required_permissions : Option (List Permission))
    (allowed_tools : Option (List String)) (intent : Option Intent)
    (data_zone : Option DataZone) (sandbox_config : Option SandboxConfig) :
    Option TaskSpec :=
  match timeout_ms with
  | some t =>
    if 1 ≤ t then
      some ⟨id, name, type, inputs, retry, idempotency_key, some t, risk_tier,
            compensation, compensation_action, tool_name, required_permissions,
            allowed_tools, intent, data_zone, sandbox_config⟩
    else none
  | none =>
    some ⟨id, name, type, inputs, retry, idempotency_key, none, risk_tier,
          compensation, compensation_action, tool_name, required_permissions,
          allowed_tools, intent, data_zone, sandbox_config⟩

/-- workflow.py SafetyRule. -/
structure SafetyRule where
  type : String
  description : Option String

/-- workflow.py SafetyPolicy. -/
structure SafetyPolicy where
  name : String
  description : Option String
  rules : List SafetyRule
  fail_fast : Option Bool

/-- workflow.py WorkflowSpec: tasks plus a task-id-to-dependency-list
mapping.  The source declares no validator on any field. -/
structure WorkflowSpec where
  id : String
  name : String
  goal : Option String
  constraints : Option (List String)
  success_criteria : Option (List String)
  tasks : List TaskSpec
  dependencies : List (String × List String)
  safety_policy : Option SafetyPolicy

/-- Pydantic construction of a WorkflowSpec.  The model declares only
typed fields and no validators, so every well-typed argument list is
accepted; in particular the dependencies mapping is stored unchecked. -/
def WorkflowSpec.construct (id name : String) (goal : Option String)
    (constraints success_criteria : Option (List String))
    (tasks : List TaskSpec) (dependencies : List (String × List String))
    (safety_policy : Option SafetyPolicy) : Option WorkflowSpec :=
  some ⟨id, name, goal, constraints, success_criteria, tasks, dependencies,
        safety_policy⟩

/-- execution.py TaskExecutionResult: status is declared as a plain str
field, constrained only by its description text. -/
structure TaskExecutionResult where
  task_id : String
  status : String
  result : Option J
  error : Option String
  duration_ms : Option ℚ

/-- Pydantic construction of a TaskExecutionResult: no field carries a
constraint, so construction never fails. -/
def TaskExecutionResult.construct (task_id status : String) (result : Option J)
    (error : Option String) (duration_ms : Option ℚ) :
    Option TaskExecutionResult :=
  some ⟨task_id, status, result, error, duration_ms⟩

/-! The DAG invariant claimed for WorkflowSpec, written from the spec's
words for comparison with the source-level constructor: the dependency
mapping must mention only task ids present in the task list, contain no
self-loop, and be acyclic. -/

/-- One elimination round of Kahn-style cycle detection: nodes all of
whose remaining dependencies lie outside the remaining mapping are
removed; an empty final mapping means acyclic. -/
def acyclicAux : Nat → List (String × List String) → Bool
  | 0, remaining => remaining.isEmpty
  | fuel + 1, remaining =>
    let ready := remaining.filter
      (fun kv => kv.2.all (fun d => remaining.all (fun e => e.1 != d)))
    if ready.isEmpty then remaining.isEmpty
    else acyclicAux fuel (remaining.filter
      (fun kv => !(ready.any (fun r => r.1 == kv.1))))

/-- Acyclicity of a dependency mapping. -/
def acyclicDeps (deps : List (String × List String)) : Bool :=
  acyclicAux deps.length deps

/-- The spec's invariant on a workflow's dependency mapping: a DAG over
exactly the task ids present, with no self-loops and no dangling
references. -/
def dagInvariant (tasks : List TaskSpec) (deps : List (String × List String)) : Bool :=
  let ids := tasks.map (fun t => t.id)
  deps.all (fun kv => ids.contains kv.1 && kv.2.all (fun d => ids.contains d)) &&
  deps.all (fun kv => !(kv.2.contains kv.1)) &&
  acyclicDeps deps

/-! Models from aureus_sdk.models.crv. -/

/-- crv.py FailureTaxonomy. -/
inductive FailureTaxonomy where
  | MISSING_DATA | CONFLICT | OUT_OF_SCOPE | LOW_CONFIDENCE
  | POLICY_VIOLATION | TOOL_ERROR | NON_DETERMINISM
deriving DecidableEq

/-- crv.py ValidationResult: confidence is an optional float with ge=0
and le=1. -/
structure ValidationResult where
  valid : Bool
  reason : Option String
  confidence : Option ℚ
  metadata : Option J
  failure_code : Option FailureTaxonomy
  remediation : Option String

/-- Pydantic construction of a ValidationResult: the confidence bounds
are the only declared constraints. -/
def ValidationResult.construct (valid : Bool) (reason : Option String)
    (confidence : Option ℚ) (metadata : Option J)
    (failure_code : Option FailureTaxonomy) (remediation : Option String) :
    Option ValidationResult :=
  match confidence with
  | some c =>
    if 0 ≤ c then
      if c ≤ 1 then some ⟨valid, reason, some c, metadata, failure_code, remediation⟩
      else none
    else none
  | none => some ⟨valid, reason, none, metadata, failure_code, remediation⟩

/-- crv.py GateConfig: required_confidence is an optional float with
ge=0 and le=1. -/
structure GateConfig where
  name : String
  validators : List String
  block_on_failure : Bool
  required_confidence : Option ℚ
  recovery_strategy : Option J

/-- Pydantic construction of a GateConfig: the required_confidence
bounds are the only declared constraints. -/
def GateConfig.construct (name : String) (validators : List String)
    (block_on_failure : Bool) (required_confidence : Option ℚ)
    (recovery_strategy : Option J) : Option GateConfig :=
  match required_confidence with
  | some c =>
    if 0 ≤ c then
      if c ≤ 1 then some ⟨name, validators, block_on_failure, some c, recovery_strategy⟩
      else none
    else none
  | none => some ⟨name, validators, block_on_failure, none, recovery_strategy⟩

/-! Models from aureus_sdk.models.policy and the client. -/

/-- policy.py Principal. -/
structure Principal where
  id : String
  type : String
  permissions : List Permission

/-- policy.py ApprovalToken: a token string bound to an action id and a
principal, with an expiry timestamp and a used flag. -/
structure ApprovalToken where
  token : String
  action_id : String
  principal : Principal
  expires_at : String
  used : Bool

/-- client.py check_permission, from the point where the response body
has been parsed: result.get with default False returns the allowed field
verbatim when an object body carries one and False when it does not; a
non-object body has no get attribute and raises. -/
def check_permission (respBody : J) : Except PyErr J :=
  match respBody with
  | .obj fs => .ok ((fs.lookup "allowed").getD (.bool false))
  | _ => .error .attributeError

/-- Outcome of one consumption attempt on an approval token. -/
inductive ConsumeOutcome where
  | success
  | reused
deriving DecidableEq

/-- Modelled from the spec: ApprovalToken consumption belongs to the
policy-guard engine, which the examined material does not implement; only
the ApprovalToken data model exists in the source.  Per the spec,
consumption is an atomic check-and-mark-used: an unused token is marked
used and the attempt succeeds, a used token leaves the state unchanged
and the attempt fails with ApprovalTokenReused. -/
def consume (t : ApprovalToken) : ConsumeOutcome × ApprovalToken :=
  if t.used then (.reused, t)
  else (.success, { t with used := true })

/-- Modelled from the spec: a run of n consumption attempts against one
token.  Because each attempt is atomic, any concurrent schedule of
attempts is observationally one of these sequential interleavings. -/
def runAttempts : ApprovalToken → Nat → List ConsumeOutcome × ApprovalToken
  | t, 0 => ([], t)
  | t, n + 1 =>
    let (r, t1) := consume t
    let (rs, t2) := runAttempts t1 n
    (r :: rs, t2)

/-! Concrete demonstration inputs used by counterexamples and witnesses. -/

/-- A policy-evaluation context of the documented request shape. -/
def demoFields : List (String × J) :=
  [("intent", .obj [("action", .str "read_document"), ("user_id", .str "alice")])]

/-- The demonstration context as a JSON value. -/
def demoContext : J := .obj demoFields

/-- The same intent presented with extra fields and reordered keys. -/
def demoContextReordered : J :=
  .obj [("extra", .num 1),
        ("intent", .obj [("user_id", .str "alice"), ("action", .str "read_document")])]

/-- A context of the documented shape with the given action and user id. -/
def mkIntentContext (a u : String) : J :=
  .obj [("intent", .obj [("action", .str a), ("user_id", .str u)])]

/-- A minimal valid task for workflow construction examples. -/
def exampleTask : TaskSpec :=
  ⟨"t1", "Task 1", .ACTION, none, none, none, none, none, none, none, none,
   none, none, none, none, none⟩

/-! Helper lemmas. -/

/-- On a context of the documented shape, the risk scorer reduces to the
clamped sum of the (possibly discounted) base action risk and the random
adjustment. -/
theorem calc_reduce (a u : String) (adj : Int) :
    calculate_risk_score (mkIntentContext a u) adj =
      .ok (max 0 (min 100
        ((if containsSub "admin" (pyLower u) || containsSub "privileged" (pyLower u)
          then max 0 ((ACTION_RISKS.lookup a).getD 50 - 15)
          else (ACTION_RISKS.lookup a).getD 50) + adj))) := rfl

/-- Every consumption attempt against a used token fails and leaves the
token unchanged. -/
theorem runAttempts_of_used (t : ApprovalToken) (h : t.used = true) :
    ∀ n, runAttempts t n = (List.replicate n .reused, t) := by
  intro n
  induction n with
  | zero => simp [runAttempts]
  | succ n ih => simp [runAttempts, consume, h, ih, List.replicate]

/-! Claim theorems. -/

/-- C1 (amended): WorkflowSpec construction performs no validation of
the dependency mapping; every well-typed argument list is accepted and
the mapping is stored unchecked, so self-loops, dangling references and
cycles are not rejected at construction. -/
theorem workflowSpec_construct_accepts_any_dependencies
    (id name : String) (goal : Option String)
    (constraints success_criteria : Option (List String)) (tasks : List TaskSpec)
    (deps : List (String × List String)) (sp : Option SafetyPolicy) :
    WorkflowSpec.construct id name goal constraints success_criteria tasks deps sp =
      some ⟨id, name, goal, constraints, success_criteria, tasks, deps, sp⟩ := rfl

/-- C1 counterexample: a WorkflowSpec whose single task depends on
itself is constructed successfully, and the resulting instance violates
the claimed DAG invariant. -/
theorem workflowSpec_self_loop_accepted :
    (WorkflowSpec.construct "w" "W" none none none [exampleTask]
        [("t1", ["t1"])] none).map
      (fun ws => dagInvariant ws.tasks ws.dependencies) = some false := rfl

/-- C2 (amended): TaskExecutionResult construction performs no
validation of the status field; any status string is accepted and stored
verbatim. -/
theorem taskExecutionResult_status_unvalidated
    (task_id status : String) (result : Option J) (error : Option String)
    (duration_ms : Option ℚ) :
    TaskExecutionResult.construct task_id status result error duration_ms =
      some ⟨task_id, status, result, error, duration_ms⟩ := rfl

/-- C2 counterexample: a TaskExecutionResult with the status string
bogus is constructed successfully although that status is none of
success, failed, skipped. -/
theorem taskExecutionResult_accepts_unknown_status :
    (TaskExecutionResult.construct "t1" "bogus" none none none).map
      (fun r => ["success", "failed", "skipped"].contains r.status) = some false := rfl

/-- C3: an unused ApprovalToken is consumed exactly once: any run of at
least one atomic consumption attempt yields exactly one success with all
other attempts failing as reused, the used flag ends true, and every
later attempt against the resulting token fails while the flag stays
true. -/
theorem approvalToken_consumed_exactly_once (t : ApprovalToken)
    (h : t.used = false) (n : Nat) (hn : 1 ≤ n) :
    ((runAttempts t n).1.count .success = 1) ∧
    ((runAttempts t n).1.count .reused = n - 1) ∧
    ((runAttempts t n).2.used = true) ∧
    (∀ m, (runAttempts (runAttempts t n).2 m).1.count .success = 0) ∧
    (∀ m, (runAttempts (runAttempts t n).2 m).2.used = true) := by
  obtain ⟨k, rfl⟩ : ∃ k, n = k + 1 := ⟨n - 1, by omega⟩
  have hc : consume t = (.success, { t with used := true }) := by simp [consume, h]
  have h1 : ({ t with used := true } : ApprovalToken).used = true := rfl
  have hrun : runAttempts t (k + 1) =
      (.success :: List.replicate k .reused, { t with used := true }) := by
    simp [runAttempts, hc, runAttempts_of_used _ h1]
  refine ⟨?_, ?_, ?_, ?_, ?_⟩
  · rw [hrun]
    simp [List.count_cons, List.count_replicate]
  · rw [hrun]
    simp [List.count_cons, List.count_replicate]
  · rw [hrun]
  · intro m
    rw [hrun]
    rw [runAttempts_of_used _ h1]
    simp [List.count_replicate]
  · intro m
    rw [hrun]
    rw [runAttempts_of_used _ h1]

/-- C3 witness: three concurrent attempts against a fresh token yield
exactly one success, two reuse failures, and a permanently used token. -/
theorem approvalToken_consumed_exactly_once_witness :
    ((runAttempts ⟨"tok", "a1", ⟨"p1", "human", []⟩, "2026-01-01T00:00:00Z", false⟩ 3).1.count
        ConsumeOutcome.success = 1) ∧
    ((runAttempts ⟨"tok", "a1", ⟨"p1", "human", []⟩, "2026-01-01T00:00:00Z", false⟩ 3).1.count
        ConsumeOutcome.reused = 2) ∧
    ((runAttempts (runAttempts ⟨"tok", "a1", ⟨"p1", "human", []⟩, "2026-01-01T00:00:00Z", false⟩ 3).2 2).1.count
        ConsumeOutcome.success = 0) := by
  have h := approvalToken_consumed_exactly_once
    ⟨"tok", "a1", ⟨"p1", "human", []⟩, "2026-01-01T00:00:00Z", false⟩ rfl 3 (by omega)
  exact ⟨h.1, h.2.1, h.2.2.2.1 2⟩

/-- C4 (amended): the risk scorer is deterministic once the random draw
is fixed: its result depends only on the intent fields it extracts and
the draw, so two contexts carrying the same intent fields score
identically for the same draw. -/
theorem risk_score_deterministic_given_draw (c₁ c₂ : J) (adj : Int)
    (h : getIntentFields c₁ = getIntentFields c₂) :
    calculate_risk_score c₁ adj = calculate_risk_score c₂ adj := by
  unfold calculate_risk_score
  rw [h]

/-- C4 witness: two syntactically different contexts with the same
intent fields receive the same score under the same draw. -/
theorem risk_score_deterministic_given_draw_witness :
    calculate_risk_score demoContext 7 = calculate_risk_score demoContextReordered 7 :=
  risk_score_deterministic_given_draw demoContext demoContextReordered 7 rfl

/-- C4 counterexample: on one fixed context, two invocations whose
random draws are the extreme values of randint(-5, 10) return different
scores, so the scorer is not deterministic per context. -/
theorem risk_score_random_variation :
    calculate_risk_score demoContext (-5) = .ok 5 ∧
    calculate_risk_score demoContext 10 = .ok 20 ∧
    ¬ calculate_risk_score demoContext (-5) = calculate_risk_score demoContext 10 := by
  refine ⟨rfl, rfl, ?_⟩
  intro hEq
  rw [show calculate_risk_score demoContext (-5) = Except.ok 5 from rfl,
      show calculate_risk_score demoContext 10 = Except.ok 20 from rfl] at hEq
  injection hEq with h5
  exact absurd h5 (by decide)

/-- C5: for every action string, user id and integer random adjustment,
the risk scorer returns an integer score between 0 and 100. -/
theorem risk_score_bounded_0_100 (a u : String) (adj : Int) :
    ∃ s : Int, calculate_risk_score (mkIntentContext a u) adj = .ok s ∧
      0 ≤ s ∧ s ≤ 100 :=
  ⟨_, calc_reduce a u adj, le_max_left 0 _, max_le (by norm_num) (min_le_left _ _)⟩

/-- C6: timeout and retry bounds are positive: RetryConfig construction
fails when max_attempts or backoff_ms is below 1 or a negative
backoff_multiplier is supplied, TaskSpec construction fails when
timeout_ms is below 1, and every successfully constructed instance
satisfies the corresponding bounds. -/
theorem retry_and_timeout_bounds_positive :
    (∀ ma bo bm jit, (ma < 1 ∨ bo < 1 ∨ (∃ m, bm = some m ∧ m < 0)) →
        RetryConfig.construct ma bo bm jit = none) ∧
    (∀ ma bo bm jit rc, RetryConfig.construct ma bo bm jit = some rc →
        1 ≤ rc.max_attempts ∧ 1 ≤ rc.backoff_ms ∧
        ∀ m, rc.backoff_multiplier = some m → 0 ≤ m) ∧
    (∀ i nm ty ins r ik t rt co ca tn rp al it dz sc, t < 1 →
        TaskSpec.construct i nm ty ins r ik (some t) rt co ca tn rp al it dz sc
          = none) ∧
    (∀ i nm ty ins r ik tm rt co ca tn rp al it dz sc ts,
        TaskSpec.construct i nm ty ins r ik tm rt co ca tn rp al it dz sc
          = some ts →
        ∀ t, ts.timeout_ms = some t → 1 ≤ t) := by
  refine ⟨?_, ?_, ?_, ?_⟩
  · intro ma bo bm jit h
    unfold RetryConfig.construct
    rcases h with h | h | ⟨m, rfl, hm⟩
    · have h' : ¬ (1 ≤ ma) := by omega
      simp [h']
    · have h' : ¬ (1 ≤ bo) := by omega
      simp [h']
    · have h' : ¬ (0 ≤ m) := not_le.mpr hm
      simp [h']
  · intro ma bo bm jit rc h
    unfold RetryConfig.construct at h
    split at h
    · split at h
      · split at h
        · split at h
          · cases h
            refine ⟨by assumption, by assumption, ?_⟩
            intro m hm
            cases hm
            assumption
          · cases h
        · cases h
          refine ⟨by assumption, by assumption, ?_⟩
          intro m hm
          cases hm
      · cases h
    · cases h
  · intro i nm ty ins r ik t rt co ca tn rp al it dz sc h
    unfold TaskSpec.construct
    have h' : ¬ (1 ≤ t) := by omega
    simp [h']
  · intro i nm ty ins r ik tm rt co ca tn rp al it dz sc ts h t ht
    unfold TaskSpec.construct at h
    split at h
    · split at h
      · cases h
        cases ht
        assumption
      · cases h
    · cases h
      cases ht

/-- C6 witness: out-of-bounds retry and timeout parameters are rejected
at concrete inputs. -/
theorem retry_and_timeout_bounds_positive_witness :
    RetryConfig.construct 0 1 none none = none ∧
    RetryConfig.construct 1 0 none none = none ∧
    RetryConfig.construct 2 5 (some (-1)) none = none ∧
    TaskSpec.construct "t" "T" .ACTION none none none (some 0) none none none
      none none none none none none = none :=
  ⟨retry_and_timeout_bounds_positive.1 0 1 none none (Or.inl (by omega)),
   retry_and_timeout_bounds_positive.1 1 0 none none (Or.inr (Or.inl (by omega))),
   retry_and_timeout_bounds_positive.1 2 5 (some (-1)) none
     (Or.inr (Or.inr ⟨-1, rfl, by norm_num⟩)),
   retry_and_timeout_bounds_positive.2.2.1 "t" "T" .ACTION none none none 0 none
     none none none none none none none none (by omega)⟩

/-- C7: confidence values lie in the unit interval: a ValidationResult
confidence or GateConfig required_confidence outside the closed interval
from 0 to 1 is rejected at construction, and every successfully
constructed instance carrying such a value satisfies the bounds. -/
theorem confidence_in_unit_interval :
    (∀ v r q md fc rem, (q < 0 ∨ 1 < q) →
        ValidationResult.construct v r (some q) md fc rem = none) ∧
    (∀ v r c md fc rem vr, ValidationResult.construct v r c md fc rem = some vr →
        ∀ q, vr.confidence = some q → 0 ≤ q ∧ q ≤ 1) ∧
    (∀ nm vs b q rs, (q < 0 ∨ 1 < q) → GateConfig.construct nm vs b (some q) rs = none) ∧
    (∀ nm vs b c rs gc, GateConfig.construct nm vs b c rs = some gc →
        ∀ q, gc.required_confidence = some q → 0 ≤ q ∧ q ≤ 1) := by
  refine ⟨?_, ?_, ?_, ?_⟩
  · intro v r q md fc rem h
    unfold ValidationResult.construct
    rcases h with h | h
    · have h' : ¬ (0 ≤ q) := not_le.mpr h
      simp [h']
    · have h' : ¬ (q ≤ 1) := not_le.mpr h
      simp [h']
  · intro v r c md fc rem vr h q hq
    unfold ValidationResult.construct at h
    split at h
    · split at h
      · split at h
        · cases h
          cases hq
          constructor <;> assumption
        · cases h
      · cases h
    · cases h
      cases hq
  · intro nm vs b q rs h
    unfold GateConfig.construct
    rcases h with h | h
    · have h' : ¬ (0 ≤ q) := not_le.mpr h
      simp [h']
    · have h' : ¬ (q ≤ 1) := not_le.mpr h
      simp [h']
  · intro nm vs b c rs gc h q hq
    unfold GateConfig.construct at h
    split at h
    · split at h
      · split at h
        · cases h
          cases hq
          constructor <;> assumption
        · cases h
      · cases h
    · cases h
      cases hq

/-- C7 witness: out-of-interval confidence values are rejected at
concrete inputs, and an in-interval value is accepted. -/
theorem confidence_in_unit_interval_witness :
    ValidationResult.construct true none (some 2) none none none = none ∧
    GateConfig.construct "g" [] true (some (-1)) none = none :=
  ⟨confidence_in_unit_interval.1 true none 2 none none none (Or.inr (by norm_num)),
   confidence_in_unit_interval.2.2.1 "g" [] true (-1) none (Or.inl (by norm_num))⟩

/-- C8 (amended): the policy endpoint returns the 400 invalid-request
response, without computing any risk score or plan, when the body is
absent, falsy, or a container in which the membership test for intent
fails; and for every JSON-object body carrying an intent key the
response is exactly the outcome of the risk evaluation, so risk
evaluation is performed.  A truthy non-container body instead raises in
the membership test and yields the 500 response. -/
theorem evaluate_policy_intent_gating :
    (∀ adj, evaluate_policy none adj = .invalidRequest) ∧
    (∀ ctx adj, truthy ctx = false → evaluate_policy (some ctx) adj = .invalidRequest) ∧
    (∀ ctx adj, pyIn "intent" ctx = .ok false →
        evaluate_policy (some ctx) adj = .invalidRequest) ∧
    (∀ fs adj, fs.any (fun kv => kv.1 == "intent") = true →
        evaluate_policy (some (.obj fs)) adj =
          match calculate_risk_score (.obj fs) adj with
          | .error _ => .serverError
          | .ok score => .ok score (assess_risk_level score)
              (assess_risk_level score == "high" || assess_risk_level score == "medium")) := by
  refine ⟨?_, ?_, ?_, ?_⟩
  · intro adj
    rfl
  · intro ctx adj h
    simp [evaluate_policy, h]
  · intro ctx adj h
    by_cases ht : truthy ctx = false
    · simp [evaluate_policy, ht]
    · simp [evaluate_policy, ht, h]
  · intro fs adj h
    cases fs with
    | nil => simp at h
    | cons kv rest =>
      simp only [evaluate_policy, truthy, List.isEmpty_cons, Bool.not_false,
        pyIn, h]
      split
      · contradiction
      · rfl

/-- C8 witness: an absent body, an empty-object body and an object body
without an intent key each produce the 400 response, while an object
body with an intent key produces the 200 plan response computed from the
risk evaluation. -/
theorem evaluate_policy_intent_gating_witness :
    evaluate_policy none 0 = .invalidRequest ∧
    evaluate_policy (some (.obj [])) 0 = .invalidRequest ∧
    evaluate_policy (some (.obj [("foo", .null)])) 0 = .invalidRequest ∧
    evaluate_policy (some (.obj demoFields)) 0 = .ok 10 "low" false := by
  refine ⟨evaluate_policy_intent_gating.1 0,
    evaluate_policy_intent_gating.2.1 (.obj []) 0 rfl,
    evaluate_policy_intent_gating.2.2.1 (.obj [("foo", .null)]) 0 rfl, ?_⟩
  rw [evaluate_policy_intent_gating.2.2.2 demoFields 0 rfl]
  rfl

/-- C8 counterexample: the JSON body 5 lacks an intent key, yet the
endpoint answers with the 500 error response rather than the claimed 400
invalid-request response, because the membership test on a number raises
a TypeError that the handler converts to a 500. -/
theorem evaluate_policy_number_body_500 :
    evaluate_policy (some (.num 5)) 0 = .serverError ∧
    Resp.serverError ≠ Resp.invalidRequest := ⟨rfl, by decide⟩

/-- C9 (amended): on every JSON-object response body, check_permission
is default-deny: it returns False when the allowed field is absent and
the exact value of the allowed field when present; a non-object body
instead raises an AttributeError. -/
theorem check_permission_default_deny :
    (∀ fs, fs.lookup "allowed" = none →
        check_permission (.obj fs) = .ok (.bool false)) ∧
    (∀ fs v, fs.lookup "allowed" = some v → check_permission (.obj fs) = .ok v) := by
  constructor
  · intro fs h
    simp [check_permission, h]
  · intro fs v h
    simp [check_permission, h]

/-- C9 witness: a body carrying allowed true yields that value, and a
body without an allowed field yields False. -/
theorem check_permission_default_deny_witness :
    check_permission (.obj [("allowed", .bool true)]) = .ok (.bool true) ∧
    check_permission (.obj [("other", .num 1)]) = .ok (.bool false) :=
  ⟨check_permission_default_deny.2 [("allowed", .bool true)] (.bool true) rfl,
   check_permission_default_deny.1 [("other", .num 1)] rfl⟩

/-- C9 counterexample: a response whose JSON body is an empty array
lacks an allowed field, yet check_permission raises an AttributeError
instead of returning False. -/
theorem check_permission_nonobject_raises :
    check_permission (.arr []) = .error .attributeError ∧
    check_permission (.arr []) ≠ .ok (.bool false) :=
  ⟨rfl, fun h => Except.noConfusion h⟩

/-- C10: when the user id contains admin or privileged, case
insensitively, the base action risk from the table (default 50) is
reduced by 15 and floored at 0 before the random adjustment and clamp;
for every other user id the base risk is used unchanged. -/
theorem trusted_user_discount (a u : String) (adj : Int) :
    ((containsSub "admin" (pyLower u) || containsSub "privileged" (pyLower u)) = true →
      calculate_risk_score (mkIntentContext a u) adj =
        .ok (max 0 (min 100 (max 0 ((ACTION_RISKS.lookup a).getD 50 - 15) + adj)))) ∧
    ((containsSub "admin" (pyLower u) || containsSub "privileged" (pyLower u)) = false →
      calculate_risk_score (mkIntentContext a u) adj =
        .ok (max 0 (min 100 ((ACTION_RISKS.lookup a).getD 50 + adj)))) := by
  constructor <;> intro h <;> simp [calc_reduce, h]

/-- C10 witness: an admin-named user gets the floored discounted base
risk and a plain user the table risk unchanged. -/
theorem trusted_user_discount_witness :
    calculate_risk_score (mkIntentContext "read_document" "The_Admin") 0 = .ok 0 ∧
    calculate_risk_score (mkIntentContext "read_document" "alice") 0 = .ok 10 :=
  ⟨(trusted_user_discount "read_document" "The_Admin" 0).1 (by decide),
   (trusted_user_discount "read_document" "alice" 0).2 (by decide)⟩

end Aureus
